import Mathlib

/-!
Shallow embedding of the sonicord voice-sink sources:
`discord/sinks/mkv.py` (the `MKVSink` class and its `format_audio` method)
and `discord/team.py` (the `Team` / `TeamMember` data objects).

External effects of `format_audio` (the outcome of `subprocess.Popen`, the
behaviour of `audio.file.read()`, and the spawned process's stdout payload
and exit status) are supplied by a `World` oracle; `format_audio` is then a
pure function from the sink, the world and the audio object to a
`FormatResult` recording the Python-level outcome: the exception raised (if
any), the audio object after the call, whether a spawn was attempted and
succeeded, the argument vector handed to the spawn, the bytes fed to the
process, and whether the process's pipes and handle were released by the
time the call returned.
-/

/-- Outcome of the `subprocess.Popen(args, stdout=PIPE, stdin=PIPE)` call in
`format_audio`: success, `FileNotFoundError`, or a `subprocess.SubprocessError`
carrying the exception class name and its string rendering. -/
inductive SpawnResult where
  | ok : SpawnResult
  | fileNotFound : SpawnResult
  | subprocessError : String → String → SpawnResult
deriving DecidableEq, Repr

/-- Oracle for the external effects of one `format_audio` invocation:
the spawn outcome, whether `audio.file.read()` raises, the bytes the spawned
process writes to its stdout, and the process's exit status (which the source
never inspects). -/
structure World where
  spawn : SpawnResult
  readFails : Bool
  procOutput : List Nat
  exitCode : Int
deriving DecidableEq, Repr

/-- The slice of the voice-client object that `format_audio` reads:
`self.vc.recording`. -/
structure VoiceClient where
  recording : Bool
deriving DecidableEq, Repr

/-- A seekable in-memory byte stream, as produced by `io.BytesIO`:
its contents and the current position. -/
structure ByteStream where
  contents : List Nat
  pos : Nat
deriving DecidableEq, Repr

/-- The audio object handed to `format_audio`: its `file` stream and a record
of the last `on_format` call (`on_format(encoding)` tags the object with the
encoding; `none` means `on_format` was never called). -/
structure AudioData where
  file : ByteStream
  formattedWith : Option String
deriving DecidableEq, Repr

/-- The Python exceptions that can escape `format_audio` in the embedding:
`MKVSinkError(msg)`; an `AttributeError` from dereferencing an attribute on
`None` (carrying the attribute name); and the exception propagated when
`audio.file.read()` raises. -/
inductive PyError where
  | mkvSinkError : String → PyError
  | attributeError : String → PyError
  | readError : PyError
deriving DecidableEq, Repr

/-- The `MKVSink` object state set up by `MKVSink.__init__`. -/
structure MKVSink where
  filters : List String
  encoding : String
  vc : Option VoiceClient
  audio_data : List (Nat × ByteStream)
deriving DecidableEq, Repr

/-- Modelled from the spec: `default_filters` lives in `discord/sinks/core.py`,
which is not under src/; the spec treats capture filters as a pure
configuration object whose contents none of the claims depend on, so the
default is an abstract empty configuration. -/
def default_filters : List String := []

/-- `MKVSink.__init__(self, *, filters=None)`: resolves `filters` against
`default_filters`, sets `encoding = "mkv"`, `vc = None`, `audio_data = {}`. -/
def MKVSink.init (filters : Option (List String)) : MKVSink :=
  { filters := filters.getD default_filters
    encoding := "mkv"
    vc := none
    audio_data := [] }

/-- The fixed argument list `args` built inside `format_audio`. -/
def mkvArgs : List String :=
  ["ffmpeg", "-f", "s16le", "-ar", "48000", "-loglevel", "error",
   "-ac", "2", "-i", "-", "-f", "matroska", "pipe:1"]

/-- Everything observable about one `format_audio` call. -/
structure FormatResult where
  /-- The exception that escaped the call, or `none` on normal return. -/
  error : Option PyError
  /-- The audio object after the call (mutated in place on success). -/
  audio : AudioData
  /-- Whether `subprocess.Popen` was invoked at all. -/
  spawnAttempted : Bool
  /-- Whether `subprocess.Popen` returned a live process. -/
  processSpawned : Bool
  /-- The argument vector handed to `subprocess.Popen`, when invoked. -/
  spawnArgs : Option (List String)
  /-- The bytes written to the process's stdin by `communicate`. -/
  stdinFed : Option (List Nat)
  /-- Whether the process's pipes and handle were released on exit: `true`
  when `communicate` ran to completion (it closes both pipes and waits) or
  when no live process exists; `false` when an exception propagated past a
  live process with no release action in the source. -/
  pipesReleased : Bool
deriving DecidableEq, Repr

/-- `MKVSink.format_audio(self, audio)`, line by line:
the `self.vc.recording` guard (an `AttributeError` when `self.vc` is `None`,
an `MKVSinkError` while recording), the `Popen` call over `mkvArgs` with both
exception handlers, then `process.communicate(audio.file.read())[0]` wrapped
in a fresh `io.BytesIO` seeked to 0 and assigned to `audio.file`, followed by
`audio.on_format(self.encoding)`. The exit status of the process is never
examined. -/
def MKVSink.format_audio (sink : MKVSink) (w : World) (a : AudioData) :
    FormatResult :=
  match sink.vc with
  | none =>
      { error := some (.attributeError "recording")
        audio := a
        spawnAttempted := false
        processSpawned := false
        spawnArgs := none
        stdinFed := none
        pipesReleased := true }
  | some vc =>
      if vc.recording then
        { error := some (.mkvSinkError
            "Audio may only be formatted after recording is finished.")
          audio := a
          spawnAttempted := false
          processSpawned := false
          spawnArgs := none
          stdinFed := none
          pipesReleased := true }
      else
        match w.spawn with
        | .fileNotFound =>
            { error := some (.mkvSinkError "ffmpeg was not found.")
              audio := a
              spawnAttempted := true
              processSpawned := false
              spawnArgs := some mkvArgs
              stdinFed := none
              pipesReleased := true }
        | .subprocessError excName excStr =>
            { error := some (.mkvSinkError
                ("Popen failed: " ++ excName ++ ": " ++ excStr))
              audio := a
              spawnAttempted := true
              processSpawned := false
              spawnArgs := some mkvArgs
              stdinFed := none
              pipesReleased := true }
        | .ok =>
            if w.readFails then
              { error := some .readError
                audio := a
                spawnAttempted := true
                processSpawned := true
                spawnArgs := some mkvArgs
                stdinFed := none
                pipesReleased := false }
            else
              { error := none
                audio := { file := { contents := w.procOutput, pos := 0 }
                           formattedWith := some sink.encoding }
                spawnAttempted := true
                processSpawned := true
                spawnArgs := some mkvArgs
                stdinFed := some (a.file.contents.drop a.file.pos)
                pipesReleased := true }

/-- A team member, from `discord/team.py` (`TeamMember`); only the fields
relevant to lookup by id are carried (`id` and `name` come from the
`BaseUser` payload, `membership_state` from the member payload). -/
structure TeamMember where
  id : Nat
  name : String
  membership_state : Nat
deriving DecidableEq, Repr

/-- A team, from `discord/team.py` (`Team.__init__`): `id`, `name`, the icon
hash, `owner_id` (absent when the payload lacks `owner_user_id`), and the
member list. -/
structure Team where
  id : Nat
  name : String
  icon : Option String
  owner_id : Option Nat
  members : List TeamMember
deriving DecidableEq, Repr

/-- Modelled from the spec: `discord/utils.py` is not under src/.
`Team.owner` calls `utils.get(self.members, id=self.owner_id)`, which
returns the first element of the iterable whose named attribute equals the
supplied value, or `None` when no element matches; this is that function
specialized to the single `id` attribute (an `int`, compared against the
`Optional[int]` target, so a `None` target matches no member). -/
def utilsGetById (xs : List TeamMember) (target : Option Nat) :
    Option TeamMember :=
  xs.find? (fun m => some m.id == target)

/-- `Team.owner` property: `utils.get(self.members, id=self.owner_id)`. -/
def Team.owner (t : Team) : Option TeamMember :=
  utilsGetById t.members t.owner_id

/-- Does the list contain the two given strings at adjacent positions, in
order? Used to state properties of the `ffmpeg` argument vector. -/
def hasAdjacent : List String → String → String → Bool
  | x :: y :: rest, a, b => (x == a && y == b) || hasAdjacent (y :: rest) a b
  | _, _, _ => false

/-- A sink attached to a voice client that has finished recording. -/
def sampleStoppedSink : MKVSink :=
  { MKVSink.init none with vc := some { recording := false } }

/-- A sink attached to a voice client that is still recording. -/
def sampleRecordingSink : MKVSink :=
  { MKVSink.init none with vc := some { recording := true } }

/-- A small raw audio object. -/
def sampleAudio : AudioData :=
  { file := { contents := [1, 2, 3, 4], pos := 0 }, formattedWith := none }

/-- A world in which the spawn succeeds, the read succeeds, and the process
exits cleanly with some output. -/
def sampleWorldOk : World :=
  { spawn := .ok, readFails := false, procOutput := [9, 8, 7], exitCode := 0 }

/-- The message built for a failed `Popen` never coincides with the
tool-not-found message: the former always starts with the character P, the
latter with f. -/
theorem popenMsg_ne_ffmpegMsg (n s : String) :
    ("Popen failed: " ++ n ++ ": " ++ s) ≠ "ffmpeg was not found." := by
  intro h
  have h2 : ("Popen failed: " ++ n ++ ": " ++ s).data
      = ("ffmpeg was not found." : String).data := congrArg String.data h
  rw [String.data_append, String.data_append, String.data_append] at h2
  have h3 : ("Popen failed: " : String).data
      = 'P' :: ("open failed: " : String).data := rfl
  have h4 : ("ffmpeg was not found." : String).data
      = 'f' :: ("fmpeg was not found." : String).data := rfl
  rw [h3, h4] at h2
  simp only [List.cons_append] at h2
  injection h2 with h5 _
  exact absurd h5 (by decide)

/-- Claim C2 counterexample: with the owning session still recording,
`format_audio` raises an `MKVSinkError` whose message is
"Audio may only be formatted after recording is finished." — which is not
the message "audio may only be formatted after recording is finished" that
the claim says the error carries. -/
theorem C2_message_counterexample :
    (MKVSink.format_audio sampleRecordingSink sampleWorldOk sampleAudio).error
      = some (.mkvSinkError
          "Audio may only be formatted after recording is finished.")
    ∧ "Audio may only be formatted after recording is finished."
      ≠ "audio may only be formatted after recording is finished" := by
  exact ⟨rfl, by decide⟩

/-- Claim C2 (amended): whenever the sink's voice client reports
`recording = True`, `format_audio` always raises `MKVSinkError` with the
message "Audio may only be formatted after recording is finished." (the code
capitalizes the first word and ends with a period), never invokes
`subprocess.Popen`, and leaves the audio object unmodified. -/
theorem C2_premature_guard (sink : MKVSink) (vc : VoiceClient) (w : World)
    (a : AudioData) (hvc : sink.vc = some vc) (hrec : vc.recording = true) :
    (sink.format_audio w a).error
      = some (.mkvSinkError
          "Audio may only be formatted after recording is finished.")
    ∧ (sink.format_audio w a).spawnAttempted = false
    ∧ (sink.format_audio w a).processSpawned = false
    ∧ (sink.format_audio w a).audio = a := by
  simp [MKVSink.format_audio, hvc, hrec]

/-- Claim C2 witness: the guard theorem applied to a concrete recording sink. -/
theorem C2_premature_guard_witness :
    (MKVSink.format_audio sampleRecordingSink sampleWorldOk sampleAudio).error
      = some (.mkvSinkError
          "Audio may only be formatted after recording is finished.")
    ∧ (MKVSink.format_audio sampleRecordingSink sampleWorldOk
        sampleAudio).spawnAttempted = false
    ∧ (MKVSink.format_audio sampleRecordingSink sampleWorldOk
        sampleAudio).processSpawned = false
    ∧ (MKVSink.format_audio sampleRecordingSink sampleWorldOk
        sampleAudio).audio = sampleAudio :=
  C2_premature_guard sampleRecordingSink { recording := true } sampleWorldOk
    sampleAudio rfl rfl

/-- Claim C3 (code bug): with the session stopped, the spawn succeeding, and
the process exiting with status 1 having produced no stdout output,
`format_audio` raises nothing: it wraps the empty output in a stream,
assigns it to `audio.file` and calls `on_format("mkv")` — the exit status is
never examined, so an empty/corrupt payload is delivered instead of the
`ConversionFailedError` the claim requires. -/
theorem C3_abnormal_exit_still_delivers :
    (MKVSink.format_audio sampleStoppedSink
        { spawn := .ok, readFails := false, procOutput := [], exitCode := 1 }
        sampleAudio).error = none
    ∧ (MKVSink.format_audio sampleStoppedSink
        { spawn := .ok, readFails := false, procOutput := [], exitCode := 1 }
        sampleAudio).audio
      = { file := { contents := [], pos := 0 }, formattedWith := some "mkv" } := by
  exact ⟨rfl, rfl⟩

/-- Claim C4: in a stopped session, when `subprocess.Popen` raises
`FileNotFoundError`, `format_audio` raises `MKVSinkError` with the message
"ffmpeg was not found.", no live process is created, and the audio object
(in particular its `file`) is left unchanged; the sink itself is never
written to by `format_audio`. -/
theorem C4_tool_not_found (sink : MKVSink) (vc : VoiceClient) (w : World)
    (a : AudioData) (hvc : sink.vc = some vc) (hrec : vc.recording = false)
    (hspawn : w.spawn = .fileNotFound) :
    (sink.format_audio w a).error
      = some (.mkvSinkError "ffmpeg was not found.")
    ∧ (sink.format_audio w a).processSpawned = false
    ∧ (sink.format_audio w a).audio = a := by
  simp [MKVSink.format_audio, hvc, hrec, hspawn]

/-- Claim C4 witness: the tool-not-found theorem at a concrete stopped sink. -/
theorem C4_tool_not_found_witness :
    (MKVSink.format_audio sampleStoppedSink
        { spawn := .fileNotFound, readFails := false, procOutput := [],
          exitCode := 0 } sampleAudio).error
      = some (.mkvSinkError "ffmpeg was not found.")
    ∧ (MKVSink.format_audio sampleStoppedSink
        { spawn := .fileNotFound, readFails := false, procOutput := [],
          exitCode := 0 } sampleAudio).processSpawned = false
    ∧ (MKVSink.format_audio sampleStoppedSink
        { spawn := .fileNotFound, readFails := false, procOutput := [],
          exitCode := 0 } sampleAudio).audio = sampleAudio :=
  C4_tool_not_found sampleStoppedSink { recording := false }
    { spawn := .fileNotFound, readFails := false, procOutput := [],
      exitCode := 0 } sampleAudio rfl rfl rfl

/-- Claim C5 counterexample: at a concrete input where the spawned process
exits abnormally (status 2), `format_audio` raises no error at all, so the
non-zero-exit failure mode is not raised as a distinguishable error kind —
only the two spawn-time failure modes ever produce an error. -/
theorem C5_no_conversion_error_counterexample :
    (MKVSink.format_audio sampleStoppedSink
        { spawn := .ok, readFails := false, procOutput := [7], exitCode := 2 }
        sampleAudio).error = none := by
  exact rfl

/-- Claim C5 (amended): the two spawn-time failure modes are raised as
`MKVSinkError`s with mutually distinguishable messages — tool-not-found
always carries exactly "ffmpeg was not found." while any other spawn failure
carries a message built as "Popen failed: " followed by the exception class
name and text, and no such message equals the tool-not-found one; a
non-zero/abnormal process exit, by contrast, raises no error at all. -/
theorem C5_failure_modes :
    (∀ (sink : MKVSink) (vc : VoiceClient) (w : World) (a : AudioData),
        sink.vc = some vc → vc.recording = false → w.spawn = .fileNotFound →
        (sink.format_audio w a).error
          = some (.mkvSinkError "ffmpeg was not found."))
    ∧ (∀ (sink : MKVSink) (vc : VoiceClient) (w : World) (a : AudioData)
          (n s : String),
        sink.vc = some vc → vc.recording = false →
        w.spawn = .subprocessError n s →
        (sink.format_audio w a).error
          = some (.mkvSinkError ("Popen failed: " ++ n ++ ": " ++ s)))
    ∧ (∀ n s : String,
        ("Popen failed: " ++ n ++ ": " ++ s) ≠ "ffmpeg was not found.")
    ∧ (∀ (sink : MKVSink) (vc : VoiceClient) (w : World) (a : AudioData),
        sink.vc = some vc → vc.recording = false → w.spawn = .ok →
        w.readFails = false → w.exitCode ≠ 0 →
        (sink.format_audio w a).error = none) := by
  refine ⟨?_, ?_, popenMsg_ne_ffmpegMsg, ?_⟩
  · intro sink vc w a hvc hrec hspawn
    simp [MKVSink.format_audio, hvc, hrec, hspawn]
  · intro sink vc w a n s hvc hrec hspawn
    simp [MKVSink.format_audio, hvc, hrec, hspawn]
  · intro sink vc w a hvc hrec hspawn hread _
    simp [MKVSink.format_audio, hvc, hrec, hspawn, hread]

/-- Claim C5 witness: the failure-mode theorem instantiated at concrete
inputs for each of its three conditional parts. -/
theorem C5_failure_modes_witness :
    (MKVSink.format_audio sampleStoppedSink
        { spawn := .fileNotFound, readFails := false, procOutput := [],
          exitCode := 0 } sampleAudio).error
      = some (.mkvSinkError "ffmpeg was not found.")
    ∧ (MKVSink.format_audio sampleStoppedSink
        { spawn := .subprocessError "OSError" "out of memory",
          readFails := false, procOutput := [], exitCode := 0 }
        sampleAudio).error
      = some (.mkvSinkError
          ("Popen failed: " ++ "OSError" ++ ": " ++ "out of memory"))
    ∧ ("Popen failed: " ++ "OSError" ++ ": " ++ "out of memory")
      ≠ "ffmpeg was not found."
    ∧ (MKVSink.format_audio sampleStoppedSink
        { spawn := .ok, readFails := false, procOutput := [7], exitCode := 3 }
        sampleAudio).error = none :=
  ⟨C5_failure_modes.1 sampleStoppedSink { recording := false }
      { spawn := .fileNotFound, readFails := false, procOutput := [],
        exitCode := 0 } sampleAudio rfl rfl rfl,
   C5_failure_modes.2.1 sampleStoppedSink { recording := false }
      { spawn := .subprocessError "OSError" "out of memory",
        readFails := false, procOutput := [], exitCode := 0 }
      sampleAudio "OSError" "out of memory" rfl rfl rfl,
   C5_failure_modes.2.2.1 "OSError" "out of memory",
   C5_failure_modes.2.2.2 sampleStoppedSink { recording := false }
      { spawn := .ok, readFails := false, procOutput := [7], exitCode := 3 }
      sampleAudio rfl rfl rfl rfl (by decide)⟩

/-- Claim C6: on every successful run (sink constructed by `__init__` and
then attached to a stopped voice client, spawn succeeds, read succeeds), the
audio object ends with `file` a fresh stream holding exactly the process's
stdout payload at position 0, and `on_format` is called with the tag "mkv"
declared by the constructor. -/
theorem C6_success_postcondition (f : Option (List String)) (vc : VoiceClient)
    (w : World) (a : AudioData) (hrec : vc.recording = false)
    (hspawn : w.spawn = .ok) (hread : w.readFails = false) :
    (MKVSink.format_audio { MKVSink.init f with vc := some vc } w a).error
      = none
    ∧ (MKVSink.format_audio { MKVSink.init f with vc := some vc } w
        a).audio.file.contents = w.procOutput
    ∧ (MKVSink.format_audio { MKVSink.init f with vc := some vc } w
        a).audio.file.pos = 0
    ∧ (MKVSink.format_audio { MKVSink.init f with vc := some vc } w
        a).audio.formattedWith = some "mkv" := by
  simp [MKVSink.format_audio, MKVSink.init, hrec, hspawn, hread]

/-- Claim C6 witness: the success postcondition at a concrete run. -/
theorem C6_success_postcondition_witness :
    (MKVSink.format_audio { MKVSink.init none with vc := some { recording := false } }
        sampleWorldOk sampleAudio).error = none
    ∧ (MKVSink.format_audio { MKVSink.init none with vc := some { recording := false } }
        sampleWorldOk sampleAudio).audio.file.contents = sampleWorldOk.procOutput
    ∧ (MKVSink.format_audio { MKVSink.init none with vc := some { recording := false } }
        sampleWorldOk sampleAudio).audio.file.pos = 0
    ∧ (MKVSink.format_audio { MKVSink.init none with vc := some { recording := false } }
        sampleWorldOk sampleAudio).audio.formattedWith = some "mkv" :=
  C6_success_postcondition none { recording := false } sampleWorldOk
    sampleAudio rfl rfl rfl

/-- Claim C7: whenever `format_audio` invokes `subprocess.Popen`, it passes
exactly `mkvArgs`, and that fixed argument vector specifies: executable
"ffmpeg"; input format s16le ("-f" "s16le"); 48000 Hz sample rate ("-ar"
"48000"); 2 channels ("-ac" "2"); input read from standard input ("-i" "-");
output container matroska ("-f" "matroska") written to standard output (the
final argument "pipe:1"); and log verbosity restricted to errors only
("-loglevel" "error"). -/
theorem C7_fixed_argument_list :
    (∀ (sink : MKVSink) (w : World) (a : AudioData),
        (sink.format_audio w a).spawnAttempted = true →
        (sink.format_audio w a).spawnArgs = some mkvArgs)
    ∧ mkvArgs.head? = some "ffmpeg"
    ∧ hasAdjacent mkvArgs "-f" "s16le" = true
    ∧ hasAdjacent mkvArgs "-ar" "48000" = true
    ∧ hasAdjacent mkvArgs "-ac" "2" = true
    ∧ hasAdjacent mkvArgs "-i" "-" = true
    ∧ hasAdjacent mkvArgs "-f" "matroska" = true
    ∧ hasAdjacent mkvArgs "matroska" "pipe:1" = true
    ∧ mkvArgs.getLast? = some "pipe:1"
    ∧ hasAdjacent mkvArgs "-loglevel" "error" = true := by
  refine ⟨?_, by decide, by decide, by decide, by decide, by decide,
    by decide, by decide, by decide, by decide⟩
  intro sink w a h
  rcases hv : sink.vc with _ | vc
  · simp [MKVSink.format_audio, hv] at h
  · rcases hr : vc.recording
    · rcases hs : w.spawn <;> rcases hrd : w.readFails <;>
        simp [MKVSink.format_audio, hv, hr, hs, hrd]
    · simp [MKVSink.format_audio, hv, hr] at h

/-- Claim C7 witness: a concrete run that reaches the spawn passes `mkvArgs`. -/
theorem C7_fixed_argument_list_witness :
    (MKVSink.format_audio sampleStoppedSink sampleWorldOk
        sampleAudio).spawnArgs = some mkvArgs :=
  C7_fixed_argument_list.1 sampleStoppedSink sampleWorldOk sampleAudio rfl

/-- Claim C8 counterexample: at a concrete input where `audio.file.read()`
raises after the process was spawned, `format_audio` lets the exception
propagate with the spawned process's pipes and handle not released — there
is no cleanup on that exit path in the source. -/
theorem C8_leak_counterexample :
    (MKVSink.format_audio sampleStoppedSink
        { spawn := .ok, readFails := true, procOutput := [], exitCode := 0 }
        sampleAudio).processSpawned = true
    ∧ (MKVSink.format_audio sampleStoppedSink
        { spawn := .ok, readFails := true, procOutput := [], exitCode := 0 }
        sampleAudio).pipesReleased = false := by
  exact ⟨rfl, rfl⟩

/-- Claim C8 (amended): the pipes and process handle are released on every
exit path except one — they are left unreleased exactly when a live process
was spawned and `audio.file.read()` then raised; on the normal path
`communicate` releases them, and on the spawn-failure, guard and
unattached-sink paths no live process ever exists. -/
theorem C8_release_characterization (sink : MKVSink) (w : World)
    (a : AudioData) :
    (sink.format_audio w a).pipesReleased = false
      ↔ ((sink.format_audio w a).processSpawned = true
          ∧ w.readFails = true) := by
  rcases hv : sink.vc with _ | vc
  · simp [MKVSink.format_audio, hv]
  · rcases hr : vc.recording <;> rcases hs : w.spawn <;>
      rcases hrd : w.readFails <;>
        simp [MKVSink.format_audio, hv, hr, hs, hrd]

/-- Claim C8 witness: the characterization applied at the leaking input. -/
theorem C8_release_characterization_witness :
    (MKVSink.format_audio sampleStoppedSink
        { spawn := .ok, readFails := true, procOutput := [9], exitCode := 0 }
        sampleAudio).pipesReleased = false :=
  (C8_release_characterization sampleStoppedSink
      { spawn := .ok, readFails := true, procOutput := [9], exitCode := 0 }
      sampleAudio).mpr ⟨rfl, rfl⟩

/-- Claim C9: a sink fresh from `__init__` has `vc = None`, so `format_audio`
raises an `AttributeError` from dereferencing the `recording` attribute on
`None` — never an `MKVSinkError` — before `subprocess.Popen` is ever
invoked, and the audio object is unmodified. -/
theorem C9_unattached_sink (f : Option (List String)) (w : World)
    (a : AudioData) :
    (MKVSink.init f).vc = none
    ∧ ((MKVSink.init f).format_audio w a).error
        = some (.attributeError "recording")
    ∧ (∀ msg, ((MKVSink.init f).format_audio w a).error
        ≠ some (.mkvSinkError msg))
    ∧ ((MKVSink.init f).format_audio w a).spawnAttempted = false
    ∧ ((MKVSink.init f).format_audio w a).audio = a := by
  refine ⟨rfl, ?_, ?_, ?_, ?_⟩ <;>
    simp [MKVSink.format_audio, MKVSink.init]

/-- Claim C9 witness: the unattached-sink theorem at concrete inputs,
including one instance of its negative conjunct. -/
theorem C9_unattached_sink_witness :
    ((MKVSink.init none).format_audio sampleWorldOk sampleAudio).error
      = some (.attributeError "recording")
    ∧ ((MKVSink.init none).format_audio sampleWorldOk sampleAudio).error
      ≠ some (.mkvSinkError "ffmpeg was not found.") :=
  ⟨(C9_unattached_sink none sampleWorldOk sampleAudio).2.1,
   (C9_unattached_sink none sampleWorldOk sampleAudio).2.2.1
      "ffmpeg was not found."⟩

/-- A concrete team member used to exercise `Team.owner`. -/
def sampleMember : TeamMember :=
  { id := 5, name := "alice", membership_state := 2 }

/-- A concrete team whose owner is `sampleMember`. -/
def sampleTeam : Team :=
  { id := 1, name := "apps", icon := none, owner_id := some 5,
    members := [{ id := 3, name := "bob", membership_state := 2 },
                sampleMember] }

/-- Claim C10: `Team.owner` returns a member of `members` whose id equals
`owner_id`; it returns `None` exactly when no member has that id, and in
particular whenever `owner_id` is `None`. Being a total pure function over
the team, it raises nothing and leaves the team unchanged. -/
theorem Team_owner_spec (t : Team) :
    (∀ m, t.owner = some m → m ∈ t.members ∧ some m.id = t.owner_id)
    ∧ (t.owner = none ↔ ∀ m ∈ t.members, some m.id ≠ t.owner_id)
    ∧ (t.owner_id = none → t.owner = none) := by
  have hchar : t.owner = none ↔ ∀ m ∈ t.members, some m.id ≠ t.owner_id := by
    unfold Team.owner utilsGetById
    rw [List.find?_eq_none]
    simp
  refine ⟨?_, hchar, ?_⟩
  · intro m hm
    unfold Team.owner utilsGetById at hm
    refine ⟨List.mem_of_find?_eq_some hm, ?_⟩
    have hp := List.find?_some hm
    simpa using hp
  · intro hnone
    exact hchar.mpr (fun m _ => by simp [hnone])

/-- Claim C10 witness: on the concrete team, the theorem yields that the
returned owner is a member carrying the owner id, and that a team without
an `owner_id` has no owner. -/
theorem Team_owner_spec_witness :
    (sampleMember ∈ sampleTeam.members
      ∧ some sampleMember.id = sampleTeam.owner_id)
    ∧ ({ sampleTeam with owner_id := none } : Team).owner = none :=
  ⟨(Team_owner_spec sampleTeam).1 sampleMember (by decide),
   (Team_owner_spec { sampleTeam with owner_id := none }).2.2 rfl⟩
